import Mathlib

/-!
# Verification of the Particles renderer core

Shallow embedding of the buffer-rotation / synchronization controller, the
frame pacer, the particle-count sizing rule and the compute-dispatch
partitioning of the `Particles` Android repository
(`app/src/main/cpp/Renderer.cpp`, `Renderer.h`, `ParticleSystem.cpp`).

The GPU calls themselves (glDispatchCompute, glDrawArrays, glFenceSync, ...)
are modelled by boolean observations recording whether the call was issued
during a frame; the CPU-side control state (the three buffer indices, the
fence handle, the gravity point) is modelled explicitly.
-/

namespace Particles

/-- CPU-side control state of `Renderer` that the per-frame loop reads and
writes (`Renderer.h`, lines 54-70):
`cur`, `comp`, `disp` embed `currentBufferIndex_`, `computeBufferIndex_`
and `displayBufferIndex_`; `fence` embeds whether `computeFence_` is
non-null; `gravity` embeds `gravityPoint_` (as an abstract pair, since
`Renderer::render` never writes it). -/
structure RState where
  cur : Nat
  comp : Nat
  disp : Nat
  fence : Bool
  gravity : Int × Int
  deriving Repr, DecidableEq

/-- The member initializers of the `Renderer` constructor (`Renderer.h`,
lines 25-27 and 70): `currentBufferIndex_(0)`, `computeBufferIndex_(1)`,
`displayBufferIndex_(2)`, `computeFence_ = nullptr`. -/
def initState (g : Int × Int) : RState :=
  { cur := 0, comp := 1, disp := 2, fence := false, gravity := g }

/-- The index reassignment of `Renderer::render` (`Renderer.cpp`,
lines 141-143), executed after the fence resolves.  The three C++
assignments run in order:
`displayBufferIndex_ = computeBufferIndex_;`
`computeBufferIndex_ = currentBufferIndex_;`
`currentBufferIndex_ = displayBufferIndex_;`
so the last one reads the *already updated* display index. -/
def rotateIndices (s : RState) : RState :=
  { s with
    disp := s.comp
    comp := s.cur
    cur := s.comp }

/-- The fence-wait block of `Renderer::render` (`Renderer.cpp`,
lines 131-144): if a fence exists, wait on it (bounded), delete it, null
the handle and rotate the indices; otherwise do nothing. -/
def waitPhase (s : RState) : RState :=
  if s.fence then { rotateIndices s with fence := false } else s

/-- The timeout passed to `glClientWaitSync` (`Renderer.cpp`, line 133),
in nanoseconds. -/
def fenceTimeoutNs : Nat := 16000000

/-- Per-frame observations of the GPU-facing calls issued by
`Renderer::render`: whether the clear, the buffer swap, the compute
dispatch (`updateParticles`), the fence creation (`glFenceSync`) and the
draw (`renderParticles`) happened, and whether the fence-timeout warning
was logged. -/
structure FrameObs where
  cleared : Bool
  swapped : Bool
  dispatched : Bool
  fenceCreated : Bool
  drew : Bool
  warnedTimeout : Bool
  deriving Repr, DecidableEq

/-- One call of `Renderer::render` (`Renderer.cpp`, lines 72-159), after
the frame-pacing prologue (modelled separately, see `spinExit`).
`computeOk` / `particleOk` embed the null-checks of `computeShader_` and
`particleShader_` at line 129; `timedOut` embeds whether
`glClientWaitSync` returned `GL_TIMEOUT_EXPIRED` at line 134.
The clear (lines 126-127) and the `eglSwapBuffers` (line 156) are
unconditional; the fence wait + rotation, the compute dispatch, the
`glFenceSync` and the draw happen only when both shaders are non-null. -/
def renderFrame (computeOk particleOk timedOut : Bool) (s : RState) :
    RState × FrameObs :=
  if computeOk && particleOk then
    let warn := s.fence && timedOut
    let s1 := waitPhase s
    ({ s1 with fence := true },
     { cleared := true, swapped := true, dispatched := true,
       fenceCreated := true, drew := true, warnedTimeout := warn })
  else
    (s, { cleared := true, swapped := true, dispatched := false,
          fenceCreated := false, drew := false, warnedTimeout := false })

/-- The buffer index bound by `renderParticles` during a frame entered in
state `s` with both shaders valid: `particleVAOs_[currentBufferIndex_]`
(`Renderer.cpp`, line 602), read after the fence wait has rotated the
indices. -/
def frameDrawIndex (s : RState) : Nat := (waitPhase s).cur

/-- The buffer index targeted by the compute dispatch issued during a
frame entered in state `s` with both shaders valid:
`positionBuffers_[computeBufferIndex_]` (`Renderer.cpp`, lines 550-551),
read after the fence wait has rotated the indices. -/
def frameComputeIndex (s : RState) : Nat := (waitPhase s).comp

/-- Input of one frame: shader validity flags and the timeout outcome of
the fence wait. -/
structure FrameIn where
  computeOk : Bool
  particleOk : Bool
  timedOut : Bool
  deriving Repr, DecidableEq

/-- The render loop: iterate `Renderer::render` from the constructor
state over a finite schedule of frames. -/
def run (g : Int × Int) (frames : List FrameIn) : RState :=
  frames.foldl (fun s f => (renderFrame f.computeOk f.particleOk f.timedOut s).1)
    (initState g)

/-- Observations of one call of `Renderer::updateParticles`
(`Renderer.cpp`, lines 536-583): which GL-facing steps were executed. -/
structure UpdateObs where
  activated : Bool
  copiedBuffers : Bool
  setGravityUniform : Bool
  setDeltaUniform : Bool
  dispatched : Bool
  loggedUniformFailure : Bool
  deriving Repr, DecidableEq

/-- Control flow of `Renderer::updateParticles` (`Renderer.cpp`, lines
536-583).  `activateOk` embeds the result of `computeShader_->activate()`
(line 539); `gravityLoc` and `deltaTimeLoc` embed the results of the two
`glGetUniformLocation` calls (lines 565-566).  If activation fails the
function returns early (logging an activation failure, not a uniform
failure).  Otherwise it copies the current buffers into the compute
buffers, uploads each uniform only when its location is not `-1`
(lines 568-574) and then unconditionally dispatches the compute shader
(lines 577-578).  No code path logs a uniform-location failure. -/
def updateParticlesObs (activateOk : Bool) (gravityLoc deltaTimeLoc : Int) :
    UpdateObs :=
  if activateOk then
    { activated := true
      copiedBuffers := true
      setGravityUniform := decide (gravityLoc ≠ -1)
      setDeltaUniform := decide (deltaTimeLoc ≠ -1)
      dispatched := true
      loggedUniformFailure := false }
  else
    { activated := false, copiedBuffers := false, setGravityUniform := false,
      setDeltaUniform := false, dispatched := false,
      loggedUniformFailure := false }

/-- The `spinThreshold` of `Renderer::render` (`Renderer.cpp`, line 80):
200 microseconds, in nanoseconds. -/
def spinThresholdNs : Int := 200000

/-- The sleep request of `Renderer::render` (`Renderer.cpp`, lines
101-107): when the remaining time to the frame deadline exceeds the spin
threshold, `clock_nanosleep` is asked to sleep for the remaining time
minus the threshold; otherwise no sleep is requested. -/
def sleepRequestNs (targetNs frameNs : Int) : Option Int :=
  if spinThresholdNs < targetNs - frameNs then
    some (targetNs - frameNs - spinThresholdNs)
  else
    none

/-- The spin-wait loop of `Renderer::render` (`Renderer.cpp`, lines
115-119): repeatedly re-read the monotone clock until the elapsed time
reaches the target interval; `spinExit` is the index of the first clock
observation at or past the deadline.  The hypothesis `h` states that the
clock eventually passes the deadline (monotone real time). -/
def spinExit (clock : Nat → Int) (deadline : Int)
    (h : ∃ n, deadline ≤ clock n) : Nat :=
  Nat.find h

/-- Grid columns of the particle layout: `particlesPerCol =
(int)sqrt(numParticles / (4/3))` (`Renderer.cpp`, line 416;
`ParticleSystem.cpp`, line 29).  At every target the sizing rule can
produce (100000, 200000, 400000, 25000), the C++ single-precision
computation agrees with exact rational arithmetic, so the truncation is
`Nat.sqrt` of `3 * target / 4` (all four targets are divisible by 4). -/
def gridCols (target : Nat) : Nat := Nat.sqrt (3 * target / 4)

/-- Grid rows of the particle layout: `particlesPerRow =
(int)(particlesPerCol * (4/3))` (`Renderer.cpp`, line 417;
`ParticleSystem.cpp`, line 30), i.e. the floor of `4 * cols / 3`. -/
def gridRows (cols : Nat) : Nat := 4 * cols / 3

/-- The grid adjustment `numParticles_ = particlesPerRow *
particlesPerCol` (`Renderer.cpp`, line 420; `ParticleSystem.cpp`,
line 31). -/
def adjustedParticleCount (target : Nat) : Nat :=
  gridRows (gridCols target) * gridCols target

/-- The refresh-rate sizing rule of `Renderer::initParticleSystem`
(`Renderer.cpp`, lines 408-412): `BASE_PARTICLE_COUNT = 100000` scaled by
2 when the refresh rate is at least 90 Hz. -/
def rendererTarget (refreshRate : ℚ) : Nat :=
  if 90 ≤ refreshRate then 200000 else 100000

/-- The refresh-rate sizing rule of `ParticleSystem::init`
(`ParticleSystem.cpp`, lines 7-8 and 25): 400000 particles at ≥ 90 Hz,
25000 otherwise. -/
def particleSystemTarget (refreshRate : ℚ) : Nat :=
  if 90 ≤ refreshRate then 400000 else 25000

/-- The final particle count of `Renderer::initParticleSystem`. -/
def rendererNumParticles (refreshRate : ℚ) : Nat :=
  adjustedParticleCount (rendererTarget refreshRate)

/-- The final particle count of `ParticleSystem::init`. -/
def particleSystemNumParticles (refreshRate : ℚ) : Nat :=
  adjustedParticleCount (particleSystemTarget refreshRate)

/-- The halving loop of `ParticleSystem::update` (`ParticleSystem.cpp`,
lines 75-78): starting from `cur`, halve while the value still exceeds
the GPU-reported maximum work-group size. -/
def shrinkWG (maxSize cur : Nat) : Nat :=
  if h : maxSize < cur then shrinkWG maxSize (cur / 2) else cur
termination_by cur
decreasing_by
  exact Nat.div_lt_self (Nat.lt_of_le_of_lt (Nat.zero_le _) h) (by norm_num)

/-- The work-group size chosen by `ParticleSystem::update`
(`ParticleSystem.cpp`, lines 74-78): start with the ideal size 256 and
halve until it does not exceed the reported maximum. -/
def chooseWorkGroupSize (maxSize : Nat) : Nat := shrinkWG maxSize 256

/-- The group count of `ParticleSystem::update` (`ParticleSystem.cpp`,
line 81): `(numParticles + maxWorkGroupSize - 1) / maxWorkGroupSize`. -/
def numGroupsOf (n gsize : Nat) : Nat := (n + gsize - 1) / gsize

/-- The group count of `Renderer::updateParticles` (`Renderer.cpp`,
line 577): `(numParticles + 255) / 256`, a hard-coded group size of 256. -/
def rendererNumGroups (n : Nat) : Nat := (n + 255) / 256

/-- Invariant of claim C9: either the state still carries the
constructor indices `(0, 1, 2)`, or at least one rotation has happened and
then `cur = disp` with `{cur, comp} = {0, 1}`. -/
def degenerateInv (s : RState) : Prop :=
  (s.cur = 0 ∧ s.comp = 1 ∧ s.disp = 2) ∨
    (s.cur = s.disp ∧ s.cur + s.comp = 1)

instance (s : RState) : Decidable (degenerateInv s) := by
  unfold degenerateInv; infer_instance

/-- Identity clock used to witness the frame-pacer theorem. -/
def natClock : Nat → Int := fun n => (n : Int)

/-- `rotateIndices` swaps the current and compute indices (and makes the
display index equal to the new current index). -/
theorem rotateIndices_cur_comp (s : RState) :
    (rotateIndices s).cur = s.comp ∧ (rotateIndices s).comp = s.cur ∧
      (rotateIndices s).disp = s.comp := by
  simp [rotateIndices]

/-- `waitPhase` preserves distinctness of the current and compute indices. -/
theorem waitPhase_ne {s : RState} (h : s.cur ≠ s.comp) :
    (waitPhase s).cur ≠ (waitPhase s).comp := by
  unfold waitPhase
  by_cases hf : s.fence <;> simp [hf, rotateIndices]
  · exact fun e => h e.symm
  · exact h

/-- One frame preserves distinctness of the current and compute indices. -/
theorem renderFrame_ne {s : RState} (c p t : Bool) (h : s.cur ≠ s.comp) :
    ((renderFrame c p t s).1).cur ≠ ((renderFrame c p t s).1).comp := by
  unfold renderFrame
  by_cases hcp : (c && p) = true
  · simpa [hcp] using waitPhase_ne h
  · simpa [hcp] using h

/-- Every state reachable by the render loop has distinct current and
compute indices. -/
theorem run_ne (g : Int × Int) (frames : List FrameIn) :
    (run g frames).cur ≠ (run g frames).comp := by
  unfold run
  have key : ∀ (fs : List FrameIn) (s : RState), s.cur ≠ s.comp →
      (fs.foldl (fun s f => (renderFrame f.computeOk f.particleOk f.timedOut s).1) s).cur ≠
      (fs.foldl (fun s f => (renderFrame f.computeOk f.particleOk f.timedOut s).1) s).comp := by
    intro fs
    induction fs with
    | nil => intro s h; simpa using h
    | cons f fs ih =>
        intro s h
        exact ih _ (renderFrame_ne f.computeOk f.particleOk f.timedOut h)
  exact key frames (initState g) (by simp [initState])

/-- One frame preserves `degenerateInv`. -/
theorem renderFrame_degenerateInv {s : RState} (c p t : Bool)
    (h : degenerateInv s) : degenerateInv ((renderFrame c p t s).1) := by
  unfold renderFrame
  by_cases hcp : (c && p) = true
  · unfold waitPhase
    by_cases hf : s.fence <;>
      rcases h with ⟨h1, h2, h3⟩ | ⟨h1, h2⟩ <;>
      simp [hcp, hf, rotateIndices, degenerateInv] <;> omega
  · simpa [hcp] using h

/-- Every reachable state satisfies `degenerateInv`. -/
theorem run_degenerateInv (g : Int × Int) (frames : List FrameIn) :
    degenerateInv (run g frames) := by
  unfold run
  have key : ∀ (fs : List FrameIn) (s : RState), degenerateInv s →
      degenerateInv (fs.foldl
        (fun s f => (renderFrame f.computeOk f.particleOk f.timedOut s).1) s) := by
    intro fs
    induction fs with
    | nil => intro s h; simpa using h
    | cons f fs ih =>
        intro s h
        exact ih _ (renderFrame_degenerateInv f.computeOk f.particleOk f.timedOut h)
  exact key frames (initState g) (by simp [initState, degenerateInv])

/-- For every target count, the adjusted count is exactly rows times
columns, the column count is the floor of the square root of
`target / (4/3)` and the row count is the floor of `cols * (4/3)`
(stated by the floor characterizations in exact rational arithmetic). -/
theorem adjusted_grid_exact (t : Nat) :
    adjustedParticleCount t = gridRows (gridCols t) * gridCols t ∧
      ((gridCols t : ℚ)) ^ 2 ≤ (t : ℚ) / (4 / 3) ∧
      (t : ℚ) / (4 / 3) < ((gridCols t : ℚ) + 1) ^ 2 ∧
      ((gridRows (gridCols t) : ℚ)) ≤ (gridCols t : ℚ) * (4 / 3) ∧
      (gridCols t : ℚ) * (4 / 3) < (gridRows (gridCols t) : ℚ) + 1 := by
  have h4 : (0 : Nat) < 4 := by norm_num
  have h3 : (0 : Nat) < 3 := by norm_num
  have hc1 : gridCols t * gridCols t * 4 ≤ 3 * t :=
    (Nat.le_div_iff_mul_le h4).1 (Nat.sqrt_le (3 * t / 4))
  have hc2 : 3 * t < (gridCols t + 1) * (gridCols t + 1) * 4 := by
    exact (Nat.div_lt_iff_lt_mul h4).1 (Nat.lt_succ_sqrt (3 * t / 4))
  have hr1 : gridRows (gridCols t) * 3 ≤ 4 * gridCols t :=
    Nat.div_mul_le_self (4 * gridCols t) 3
  have hr2 : 4 * gridCols t < (gridRows (gridCols t) + 1) * 3 :=
    (Nat.div_lt_iff_lt_mul h3).1 (Nat.lt_succ_self (gridRows (gridCols t)))
  refine ⟨rfl, ?_, ?_, ?_, ?_⟩
  · have e : (t : ℚ) / (4 / 3) = 3 * (t : ℚ) / 4 := by ring
    rw [e, sq]
    have := (Nat.cast_le (α := ℚ)).2 hc1
    push_cast at this
    linarith
  · have e : (t : ℚ) / (4 / 3) = 3 * (t : ℚ) / 4 := by ring
    rw [e]
    have := (Nat.cast_lt (α := ℚ)).2 hc2
    push_cast at this
    nlinarith
  · have := (Nat.cast_le (α := ℚ)).2 hr1
    push_cast at this
    linarith
  · have := (Nat.cast_lt (α := ℚ)).2 hr2
    push_cast at this
    linarith

/-- `shrinkWG` started at a power of two returns two to the minimum of
the starting exponent and the floor base-two logarithm of `maxSize`. -/
theorem shrinkWG_pow {m : Nat} (hm : 1 ≤ m) :
    ∀ j, shrinkWG m (2 ^ j) = 2 ^ min j (Nat.log 2 m) := by
  intro j
  induction j with
  | zero =>
      rw [shrinkWG]
      simp [Nat.not_lt.2 hm]
  | succ j ih =>
      rw [shrinkWG]
      by_cases h : m < 2 ^ (j + 1)
      · have hdiv : 2 ^ (j + 1) / 2 = 2 ^ j := by
          rw [Nat.pow_succ, Nat.mul_div_cancel _ (by norm_num)]
        have hlog : Nat.log 2 m ≤ j := by
          have := Nat.log_lt_of_lt_pow (Nat.one_le_iff_ne_zero.1 hm) h
          omega
        simp only [h, dif_pos, hdiv, ih]
        have : min (j + 1) (Nat.log 2 m) = min j (Nat.log 2 m) := by omega
        rw [this]
      · have hle : 2 ^ (j + 1) ≤ m := Nat.not_lt.1 h
        have hlog : j + 1 ≤ Nat.log 2 m :=
          (Nat.pow_le_iff_le_log (by norm_num) (Nat.one_le_iff_ne_zero.1 hm)).1 hle
        simp only [h, dif_neg, not_false_iff]
        have : min (j + 1) (Nat.log 2 m) = j + 1 := by omega
        rw [this]

/-- Ceiling-division specification of `(n + g - 1) / g` for `g > 0`. -/
theorem numGroupsOf_ceil {n g : Nat} (hg : 0 < g) :
    n ≤ g * numGroupsOf n g ∧ g * numGroupsOf n g < n + g := by
  unfold numGroupsOf
  have h1 := Nat.div_add_mod (n + g - 1) g
  have h2 := Nat.mod_lt (n + g - 1) hg
  set q := (n + g - 1) / g with hq
  set r := (n + g - 1) % g with hr
  have h3 : g * q = n + g - 1 - r := by omega
  rw [h3]
  omega

/-- The identity clock passes the deadline `0 + 5`. -/
theorem natClock_passes : ∃ n, (0 : Int) + 5 ≤ natClock n :=
  ⟨5, by norm_num [natClock]⟩

/-- C1. Buffer rotation safety: in every state reachable by the render
loop, the slot index bound by the render stage during the next frame
(`frameDrawIndex`, the value of `currentBufferIndex_` read by
`renderParticles` after the per-frame rotation) differs from the slot
index targeted by the compute dispatch issued in that frame
(`frameComputeIndex`, the value of `computeBufferIndex_` read by
`updateParticles`); moreover `currentBufferIndex_ ≠ computeBufferIndex_`
holds in the state itself, in particular in the initial state. -/
theorem buffer_rotation_safety (g : Int × Int) (frames : List FrameIn) :
    frameDrawIndex (run g frames) ≠ frameComputeIndex (run g frames) ∧
      (run g frames).cur ≠ (run g frames).comp := by
  refine ⟨?_, run_ne g frames⟩
  exact waitPhase_ne (run_ne g frames)

/-- C2 (counterexample evaluation). Running two frames with valid shaders
from the constructor state: the first frame finds no fence and only
dispatches, the second frame resolves the fence and executes the index
reassignment of `Renderer.cpp` lines 141-143.  The result is
`current = 1, computeTarget = 0, displayReady = 1`: the roles are not
pairwise distinct (`current = displayReady`) and slot 2 holds no role any
more, contradicting the documented pairwise-distinct cyclic rotation of
the three roles over the three slots. -/
theorem rotation_drops_slot_two :
    (run (0, 0) [⟨true, true, false⟩, ⟨true, true, false⟩]).cur = 1 ∧
    (run (0, 0) [⟨true, true, false⟩, ⟨true, true, false⟩]).comp = 0 ∧
    (run (0, 0) [⟨true, true, false⟩, ⟨true, true, false⟩]).disp = 1 := by
  decide

/-- C3. Single outstanding fence: `glFenceSync` is called (line 150 of
`Renderer.cpp`) only after the fence-wait block has run, and for every
entry state the fence handle is null at that point — the wait block
deletes and nulls any existing fence (lines 137-138), so a new fence is
never created while another is outstanding. -/
theorem fence_null_at_sync (s : RState) : (waitPhase s).fence = false := by
  unfold waitPhase
  by_cases hf : s.fence <;> simp [hf, rotateIndices]

/-- C4. Fence timeout is a soft failure: the fence wait uses the bounded
timeout constant of 16000000 ns (16 ms); a timed-out wait leaves exactly
the same post-frame state as a successful wait (fence deleted, indices
rotated, compute dispatched, new fence created, frame drawn and swapped) —
the only difference is the logged warning, emitted precisely when a fence
existed and the wait timed out. -/
theorem fence_timeout_soft (s : RState) (t : Bool) :
    (renderFrame true true t s).1 = (renderFrame true true false s).1 ∧
      (renderFrame true true t s).2.warnedTimeout = (s.fence && t) ∧
      (renderFrame true true t s).2.dispatched = true ∧
      (renderFrame true true t s).2.fenceCreated = true ∧
      (renderFrame true true t s).2.drew = true ∧
      (renderFrame true true t s).2.swapped = true ∧
      fenceTimeoutNs = 16000000 := by
  refine ⟨?_, ?_, ?_, ?_, ?_, ?_, rfl⟩ <;> simp [renderFrame]

/-- C5 (counterexample). With the compute shader active and both uniform
locations equal to `-1`, `Renderer::updateParticles` still issues the
compute dispatch and logs no uniform failure — contradicting the claim
that a uniform-binding failure is logged and makes the frame's particle
update a no-op with no dispatch issued. -/
theorem uniform_failure_still_dispatches :
    (updateParticlesObs true (-1) (-1)).dispatched = true ∧
      (updateParticlesObs true (-1) (-1)).loggedUniformFailure = false := by
  decide

/-- C5 (amended). If a uniform location is `-1`, the corresponding
uniform upload is skipped silently (so no invalid-location GL call is
made and nothing is logged), but the buffer copy and the compute dispatch
still happen: the frame's particle update is not a no-op. -/
theorem uniform_failure_skips_upload (gLoc deltaLoc : Int)
    (hg : gLoc = -1) (hd : deltaLoc = -1) :
    (updateParticlesObs true gLoc deltaLoc).setGravityUniform = false ∧
      (updateParticlesObs true gLoc deltaLoc).setDeltaUniform = false ∧
      (updateParticlesObs true gLoc deltaLoc).copiedBuffers = true ∧
      (updateParticlesObs true gLoc deltaLoc).dispatched = true ∧
      (updateParticlesObs true gLoc deltaLoc).loggedUniformFailure = false := by
  subst hg hd
  decide

/-- Witness for C5 (amended) at locations `-1`, `-1`. -/
theorem uniform_failure_skips_upload_witness :
    (updateParticlesObs true (-1) (-1)).setGravityUniform = false ∧
      (updateParticlesObs true (-1) (-1)).setDeltaUniform = false ∧
      (updateParticlesObs true (-1) (-1)).copiedBuffers = true ∧
      (updateParticlesObs true (-1) (-1)).dispatched = true ∧
      (updateParticlesObs true (-1) (-1)).loggedUniformFailure = false :=
  uniform_failure_skips_upload (-1) (-1) rfl rfl

/-- C6. Frame pacer never runs a frame early: for a frame whose elapsed
time `frame` since the previous frame start is below the target interval,
the sleep request is exactly the remaining time minus the 200 µs guard
band whenever the remainder exceeds the guard band (and no sleep is
requested otherwise); and whatever the clock does, the spin-wait loop
exits at the first observation at or past the deadline
`last + target`, so the frame body is entered no earlier than one full
target interval after the previous frame start. -/
theorem frame_pacer_never_early (clock : Nat → Int) (last target frame : Int)
    (hex : ∃ n, last + target ≤ clock n) (hlt : frame < target) :
    last + target ≤ clock (spinExit clock (last + target) hex) ∧
      (∀ m, m < spinExit clock (last + target) hex →
        clock m < last + target) ∧
      (spinThresholdNs < target - frame →
        sleepRequestNs target frame = some (target - frame - spinThresholdNs)) ∧
      (target - frame ≤ spinThresholdNs →
        sleepRequestNs target frame = none) ∧
      spinThresholdNs = 200000 := by
  refine ⟨Nat.find_spec hex, ?_, ?_, ?_, rfl⟩
  · intro m hm
    exact lt_of_not_ge (Nat.find_min hex hm)
  · intro h
    simp [sleepRequestNs, h]
  · intro h
    simp [sleepRequestNs, not_lt_of_ge h]

/-- Witness for C6 with the identity clock, `last = 0`, `target = 5`,
`frame = 3`. -/
theorem frame_pacer_never_early_witness :
    (0 : Int) + 5 ≤ natClock (spinExit natClock ((0 : Int) + 5) natClock_passes) ∧
      (∀ m, m < spinExit natClock ((0 : Int) + 5) natClock_passes →
        natClock m < (0 : Int) + 5) ∧
      (spinThresholdNs < (5 : Int) - 3 →
        sleepRequestNs 5 3 = some (5 - 3 - spinThresholdNs)) ∧
      ((5 : Int) - 3 ≤ spinThresholdNs → sleepRequestNs 5 3 = none) ∧
      spinThresholdNs = 200000 :=
  frame_pacer_never_early natClock 0 5 3 natClock_passes (by norm_num)

/-- C7. Grid exactness of the particle count: for every refresh rate, in
both sizing rules (`Renderer::initParticleSystem` and
`ParticleSystem::init`), the final particle count equals
`particlesPerRow * particlesPerCol` exactly, where `particlesPerCol` is
the floor of `sqrt(target / (4/3))` and `particlesPerRow` the floor of
`particlesPerCol * (4/3)` (floors stated by their defining inequalities
in exact rational arithmetic). -/
theorem grid_particle_count_exact (r : ℚ) :
    (rendererNumParticles r =
        gridRows (gridCols (rendererTarget r)) * gridCols (rendererTarget r) ∧
      ((gridCols (rendererTarget r) : ℚ)) ^ 2 ≤ (rendererTarget r : ℚ) / (4 / 3) ∧
      (rendererTarget r : ℚ) / (4 / 3) < ((gridCols (rendererTarget r) : ℚ) + 1) ^ 2 ∧
      ((gridRows (gridCols (rendererTarget r)) : ℚ)) ≤
        (gridCols (rendererTarget r) : ℚ) * (4 / 3) ∧
      (gridCols (rendererTarget r) : ℚ) * (4 / 3) <
        (gridRows (gridCols (rendererTarget r)) : ℚ) + 1) ∧
    (particleSystemNumParticles r =
        gridRows (gridCols (particleSystemTarget r)) *
          gridCols (particleSystemTarget r) ∧
      ((gridCols (particleSystemTarget r) : ℚ)) ^ 2 ≤
        (particleSystemTarget r : ℚ) / (4 / 3) ∧
      (particleSystemTarget r : ℚ) / (4 / 3) <
        ((gridCols (particleSystemTarget r) : ℚ) + 1) ^ 2 ∧
      ((gridRows (gridCols (particleSystemTarget r)) : ℚ)) ≤
        (gridCols (particleSystemTarget r) : ℚ) * (4 / 3) ∧
      (gridCols (particleSystemTarget r) : ℚ) * (4 / 3) <
        (gridRows (gridCols (particleSystemTarget r)) : ℚ) + 1) :=
  ⟨adjusted_grid_exact (rendererTarget r),
   adjusted_grid_exact (particleSystemTarget r)⟩

/-- C8 (counterexample). For a GPU reporting a maximum work-group size of
512, `ParticleSystem::update` chooses a work-group size of 256, yet 512
is itself a power of two not exceeding the reported maximum — so the
chosen size is not the largest power of two below or equal to the
maximum, refuting the claim at this input. -/
theorem work_group_size_not_largest :
    chooseWorkGroupSize 512 = 256 ∧ 2 ^ 9 ≤ 512 ∧
      chooseWorkGroupSize 512 < 2 ^ 9 := by
  have h : chooseWorkGroupSize 512 = 256 := by
    unfold chooseWorkGroupSize
    rw [shrinkWG]
    norm_num
  exact ⟨h, by norm_num, by rw [h]; norm_num⟩

/-- C8 (amended). For every reported maximum `m ≥ 1`, the work-group size
chosen by `ParticleSystem::update` is `2 ^ min 8 (log2 m)`: the largest
power of two that is at most 256 *and* at most `m` (the loop starts at
the ideal size 256 and only ever halves).  The dispatched group count is
the exact integer ceiling `ceil(n / gsize)` for every particle count `n`
and every positive group size, and `Renderer::updateParticles` uses the
same formula with the group size fixed at 256. -/
theorem work_group_partitioning (m : Nat) (hm : 1 ≤ m) :
    chooseWorkGroupSize m = 2 ^ min 8 (Nat.log 2 m) ∧
      chooseWorkGroupSize m ≤ 256 ∧ chooseWorkGroupSize m ≤ m ∧
      (∀ k, 2 ^ k ≤ 256 → 2 ^ k ≤ m → 2 ^ k ≤ chooseWorkGroupSize m) ∧
      (∀ n g, 0 < g → n ≤ g * numGroupsOf n g ∧ g * numGroupsOf n g < n + g) ∧
      (∀ n, rendererNumGroups n = numGroupsOf n 256) := by
  have hmain : chooseWorkGroupSize m = 2 ^ min 8 (Nat.log 2 m) := by
    have := shrinkWG_pow hm 8
    simpa [chooseWorkGroupSize] using this
  refine ⟨hmain, ?_, ?_, ?_, fun n g hg => numGroupsOf_ceil hg, fun n => rfl⟩
  · rw [hmain]
    calc 2 ^ min 8 (Nat.log 2 m) ≤ 2 ^ 8 :=
          Nat.pow_le_pow_right (by norm_num) (min_le_left _ _)
      _ = 256 := by norm_num
  · rw [hmain]
    calc 2 ^ min 8 (Nat.log 2 m) ≤ 2 ^ Nat.log 2 m :=
          Nat.pow_le_pow_right (by norm_num) (min_le_right _ _)
      _ ≤ m := Nat.pow_log_le_self 2 (Nat.one_le_iff_ne_zero.1 hm)
  · intro k hk256 hkm
    rw [hmain]
    apply Nat.pow_le_pow_right (by norm_num)
    have h8 : k ≤ 8 := by
      by_contra hgt
      push_neg at hgt
      have : (2 : Nat) ^ 9 ≤ 2 ^ k := Nat.pow_le_pow_right (by norm_num) hgt
      omega
    have hlog : k ≤ Nat.log 2 m :=
      (Nat.pow_le_iff_le_log (by norm_num) (Nat.one_le_iff_ne_zero.1 hm)).1 hkm
    omega

/-- Witness for C8 (amended) at a reported maximum of 512. -/
theorem work_group_partitioning_witness :
    (1 ≤ 512) ∧
      (chooseWorkGroupSize 512 = 2 ^ min 8 (Nat.log 2 512) ∧
        chooseWorkGroupSize 512 ≤ 256 ∧ chooseWorkGroupSize 512 ≤ 512 ∧
        (∀ k, 2 ^ k ≤ 256 → 2 ^ k ≤ 512 → 2 ^ k ≤ chooseWorkGroupSize 512) ∧
        (∀ n g, 0 < g →
          n ≤ g * numGroupsOf n g ∧ g * numGroupsOf n g < n + g) ∧
        (∀ n, rendererNumGroups n = numGroupsOf n 256)) :=
  ⟨by norm_num, work_group_partitioning 512 (by norm_num)⟩

/-- C9. Degenerate two-slot alternation: every reachable state either
still carries the constructor indices `(0, 1, 2)` or satisfies
`currentBufferIndex_ = displayBufferIndex_` with
`{current, computeTarget} = {0, 1}`; consequently the index drawn and the
index computed into are always in `{0, 1}` — slot 2 is never rendered
from, never computed into, and after the first rotation never holds any
role. -/
theorem degenerate_two_slot (g : Int × Int) (frames : List FrameIn) :
    ((run g frames).cur = 0 ∧ (run g frames).comp = 1 ∧
        (run g frames).disp = 2 ∨
      (run g frames).cur = (run g frames).disp ∧
        (run g frames).cur + (run g frames).comp = 1) ∧
      frameDrawIndex (run g frames) ≤ 1 ∧
      frameComputeIndex (run g frames) ≤ 1 := by
  have h := run_degenerateInv g frames
  refine ⟨h, ?_, ?_⟩ <;>
    · simp only [frameDrawIndex, frameComputeIndex, waitPhase]
      by_cases hf : (run g frames).fence <;>
        rcases h with ⟨h1, h2, h3⟩ | ⟨h1, h2⟩ <;>
        simp [hf, rotateIndices] <;> omega

/-- C10. Failed shaders make the frame a safe no-op: if either shader is
null, `Renderer::render` still clears the surface and swaps buffers, but
issues no compute dispatch, creates no fence, draws nothing, logs no
timeout warning, and leaves the whole control state (rotation indices,
fence handle and gravity point) unchanged. -/
theorem null_shader_noop (s : RState) (c p t : Bool)
    (h : c = false ∨ p = false) :
    (renderFrame c p t s).1 = s ∧
      (renderFrame c p t s).2 =
        { cleared := true, swapped := true, dispatched := false,
          fenceCreated := false, drew := false, warnedTimeout := false } := by
  have hcp : (c && p) = false := by rcases h with h | h <;> simp [h]
  simp [renderFrame, hcp]

/-- Witness for C10 at a concrete state and flags. -/
theorem null_shader_noop_witness :
    ((false : Bool) = false ∨ (true : Bool) = false) ∧
      (renderFrame false true false (initState (0, 0))).1 = initState (0, 0) ∧
      (renderFrame false true false (initState (0, 0))).2 =
        { cleared := true, swapped := true, dispatched := false,
          fenceCreated := false, drew := false, warnedTimeout := false } := by
  refine ⟨Or.inl rfl, ?_⟩
  exact null_shader_noop (initState (0, 0)) false true false (Or.inl rfl)

end Particles
